import Mathlib

/-!
# Verification of the claude-conductor task-queue / lock-lease protocol

Shallow embedding of the coordination core of the repository:

* `bin/worker.sh` — the worker runtime: `acquire_lock`, `release_lock`,
  `process_task`, and the watch loop;
* `bin/orchestrator.js` — the scheduler: `findIdleWorker`,
  `waitForAvailableWorker`, `assignTask`, `executeTasks`,
  `executeSequential`.

The slot-store primitives (`lib/queue.js`: `readStatus`, `writeTask`,
`clearResult`, `writeStatus`, `readResult`) are not present in the source
tree; where they are needed they are modelled from the spec (§4.2) as plain
record reads/writes on a slot value.
-/

namespace Conductor

/-! ## Lock/Lease manager (`bin/worker.sh`, `acquire_lock`, lines 33-59)

Each pass through the `while [ $retries -gt 0 ]` loop observes the state of
the lock directory at the instant `mkdir "$LOCK_FILE"` is attempted.  The
environment `env : Nat → LockObs` records that observation for each
successive pass. -/

/-- What one iteration of the retry loop of `acquire_lock` observes. -/
inductive LockObs
  /-- `mkdir "$LOCK_FILE"` succeeds: the lock was free. -/
  | free
  /-- `mkdir` fails, `$LOCK_FILE/pid` exists and `kill -0` reports the
  holder alive. -/
  | heldLive
  /-- `mkdir` fails, `$LOCK_FILE/pid` exists and the recorded PID is dead
  (stale lock). -/
  | heldDead
  /-- `mkdir` fails and no `$LOCK_FILE/pid` file exists. -/
  | heldNoPid
deriving DecidableEq, Repr

/-- One run of `acquire_lock` (worker.sh lines 33-59), fuel-indexed because
the stale-lock branch (`rm -rf "$LOCK_FILE"; continue`) re-enters the loop
without decrementing `retries`, so the loop has no a-priori bound.

Arguments: fuel, iteration index, `retries`, `wait`, accumulated sleep
durations (reversed), count of stale locks removed.  Returns `none` when the
fuel runs out, otherwise `some (ok, sleeps, staleRemoved)` where `ok` is the
shell success (`return 0`) / failure (`return 1`) of the call. -/
def acquireLockAux (env : Nat → LockObs) :
    Nat → Nat → Nat → Nat → List Nat → Nat → Option (Bool × List Nat × Nat)
  | 0, _, _, _, _, _ => none
  | fuel + 1, i, retries, wait, sleeps, stale =>
    if retries = 0 then
      -- loop condition `[ $retries -gt 0 ]` fails: `return 1`
      some (false, sleeps.reverse, stale)
    else
      match env i with
      | .free =>
        -- `mkdir` succeeded; `echo "$$" > "$LOCK_FILE/pid"; return 0`
        some (true, sleeps.reverse, stale)
      | .heldDead =>
        -- stale branch: `rm -rf "$LOCK_FILE"; continue`
        acquireLockAux env fuel (i + 1) retries wait sleeps (stale + 1)
      | .heldLive =>
        -- `sleep "$wait"; retries=$((retries - 1)); wait=$((wait * 2))`
        acquireLockAux env fuel (i + 1) (retries - 1) (wait * 2) (wait :: sleeps) stale
      | .heldNoPid =>
        -- `[ -f "$LOCK_FILE/pid" ]` false: fall through to the same backoff
        acquireLockAux env fuel (i + 1) (retries - 1) (wait * 2) (wait :: sleeps) stale

/-- `acquire_lock` entry point: `retries=5`, `wait=1`. -/
def acquire_lock (env : Nat → LockObs) (fuel : Nat) : Option (Bool × List Nat × Nat) :=
  acquireLockAux env fuel 0 5 1 [] 0

/-! ## Durable record shapes (spec §3 / §6, as read and written by the code) -/

/-- The contents of `status.json`: a state string plus the optional
`taskId` the worker stamps into it. -/
inductive WStatus
  | idle
  | working (tid : Nat)
  | done (tid : Nat)
  | error (tid : Nat)
deriving DecidableEq, Repr

/-- A task record (`task.json`): the fields `process_task` reads
(`.id`, `.prompt`).  An empty `prompt` is what the
validation check `[ -z "$prompt" ]` in the worker rejects. -/
structure MTask where
  id : Nat
  prompt : String
deriving DecidableEq, Repr

/-- A result record (`result.json`): the fields the scheduler consumes
(`taskId`, `success`). -/
structure MResult where
  taskId : Nat
  success : Bool
deriving DecidableEq, Repr

/-- The durable files of one slot, as seen through the slot store.

Modelled from the spec: `lib/queue.js` is not in the source tree; per §4.2
`readStatus`/`writeStatus`, `writeTask`/`deleteTask` and
`readResult`/`clearResult` are reads and writes of these three records,
with absence an ordinary value (`Option`). -/
structure FSlot where
  status : WStatus
  task : Option MTask
  result : Option MResult
deriving DecidableEq, Repr

/-! ## Worker runtime: `process_task` (`bin/worker.sh`, lines 75-149)

The function is straight-line once the lock is held; we record the sequence
of slot-affecting operations it performs, its effect on the slot, and its
shell return code. -/

/-- The slot-affecting operations `process_task` can perform, in source
order of their call sites. -/
inductive WOp
  | acquireLock
  | writeStatusWorking
  | execAgent
  | writeResult
  | writeStatusDone
  | writeStatusError
  | deleteTask
  | releaseLock
deriving DecidableEq, Repr

/-- `process_task` (worker.sh lines 75-149).  `lockOk` is the outcome of
`acquire_lock`; `execSuccess` is the exit status of the
`echo "$prompt" | claude-code` pipeline.  Returns the slot after the call,
the list of operations performed, and the shell return code. -/
def process_task (s : FSlot) (lockOk : Bool) (execSuccess : Bool) :
    FSlot × List WOp × Nat :=
  if !lockOk then
    -- `log "Failed to acquire lock"; return 1`
    (s, [], 1)
  else
    match s.task with
    | none =>
      -- `[ ! -f "$task_file" ]`: `release_lock; return 0`
      (s, [.acquireLock, .releaseLock], 0)
    | some t =>
      if t.prompt = "" then
        -- `[ -z "$prompt" ]`: `log "Invalid task file, skipping";
        -- rm -f "$task_file"; release_lock; return 0`
        ({ s with task := none }, [.acquireLock, .deleteTask, .releaseLock], 0)
      else
        -- status := working, run the agent, write result, write terminal
        -- status, `rm -f ... "$task_file"`, `release_lock`
        ({ status := if execSuccess then .done t.id else .error t.id
           task := none
           result := some ⟨t.id, execSuccess⟩ },
         [.acquireLock, .writeStatusWorking, .execAgent, .writeResult,
          if execSuccess then .writeStatusDone else .writeStatusError,
          .deleteTask, .releaseLock],
         0)

/-! ## Record-write mechanism (`bin/worker.sh`)

Every write of a status or result record in the worker script, with the
mechanism the script uses at that site. -/

/-- How a record file is produced at a given write site. -/
inductive WriteMech
  /-- A single shell redirection straight onto the canonical path
  (`echo ... > file` or `jq ... > file`). -/
  | directRedirect
  /-- Write to a temporary path followed by an atomic rename onto the
  canonical path. -/
  | tempThenRename
deriving DecidableEq, Repr

/-- A record-write site in `bin/worker.sh`: which record it writes and the
mechanism used. -/
structure WriteSite where
  record : String
  line : Nat
  mech : WriteMech
deriving DecidableEq, Repr

/-- All writes of Status or Result records in `bin/worker.sh`:
line 26 (initial idle status), line 102 (working), lines 124-135 (the `jq`
result write), line 139 (done), line 142 (error).  Each is a plain
redirection onto the canonical path. -/
def workerWriteSites : List WriteSite :=
  [ ⟨"status", 26, .directRedirect⟩,
    ⟨"status", 102, .directRedirect⟩,
    ⟨"result", 135, .directRedirect⟩,
    ⟨"status", 139, .directRedirect⟩,
    ⟨"status", 142, .directRedirect⟩ ]

/-! ## Interleaved slot protocol: one slot, its worker and the scheduler

Each constructor of `SlotStep` is a single file-system mutation performed
either by the scheduler (`bin/orchestrator.js`) or the worker
(`bin/worker.sh`); worker steps follow the program order of `process_task`
via the program counter `WPc`, scheduler steps carry the two-phase
`assignTask` via `OPc`.  Any interleaving of the two processes is a path in
this relation, so "at any sampled instant" = "in any reachable state". -/

/-- The position of the worker inside its processing cycle. -/
inductive WPc
  /-- In the watch loop, no lock held. -/
  | watching
  /-- `acquire_lock` succeeded, task not yet examined. -/
  | locked
  /-- `Status{working}` written, agent executing task `t`. -/
  | runningTask (t : MTask)
  /-- `result.json` for `t` written with success flag `succ`. -/
  | resultWritten (t : MTask) (succ : Bool)
  /-- Terminal `Status{done|error}` written. -/
  | terminalWritten
  /-- Completion path: about to `release_lock` (after deleting the task). -/
  | unlockingDone
  /-- Skip path (no task / malformed task): about to `release_lock`. -/
  | unlockingSkip
deriving DecidableEq, Repr

/-- The position of the scheduler inside `assignTask` (orchestrator.js lines
75-86): `clearResult` and `writeTask` are two separate writes. -/
inductive OPc
  | ready
  /-- `clearResult` done, `writeTask t` pending. -/
  | clearedFor (t : MTask)
deriving DecidableEq, Repr

/-- Full sampled state of one slot: its durable records, whether the lease
directory exists, and the positions of both processes. -/
structure MState where
  status : WStatus
  task : Option MTask
  result : Option MResult
  lease : Bool
  wpc : WPc
  opc : OPc
deriving DecidableEq, Repr

/-- The initial state: worker start-up wrote `Status{idle}` (worker.sh line
26), no task, no result, no lease. -/
def initState : MState :=
  ⟨.idle, none, none, false, .watching, .ready⟩

/-- Is a status `idle` or `done`?  `findIdleWorker` (orchestrator.js lines
43-51) treats both as an assignable slot. -/
def WStatus.isAssignable : WStatus → Bool
  | .idle => true
  | .done _ => true
  | _ => false

/-- Is a status terminal (`done` or `error`)?  The collection branch of the
scheduler fires on these. -/
def WStatus.isTerminal : WStatus → Bool
  | .done _ => true
  | .error _ => true
  | _ => false

/-- One atomic file-system mutation by the scheduler or the worker. -/
inductive SlotStep : MState → MState → Prop
  /-- Scheduler, `assignTask` first half (orchestrator.js line 80):
  `clearResult(workerId)`.  Reached only through `findIdleWorker`, which
  requires the observed status to be `idle` or `done`. -/
  | oClear (s : MState) (t : MTask) (h1 : s.opc = .ready)
      (h2 : s.status.isAssignable = true) :
      SlotStep s { s with result := none, opc := .clearedFor t }
  /-- Scheduler, `assignTask` second half (line 83): `writeTask`. -/
  | oWrite (s : MState) (t : MTask) (h : s.opc = .clearedFor t) :
      SlotStep s { s with task := some t, opc := .ready }
  /-- Scheduler reset (orchestrator.js line 153 / 195): after observing a
  terminal status, the scheduler writes the status back to idle. -/
  | oReset (s : MState) (h1 : s.opc = .ready) (h2 : s.status.isTerminal = true) :
      SlotStep s { s with status := .idle }
  /-- Worker: `acquire_lock` succeeds (worker.sh line 38-40). -/
  | wAcquire (s : MState) (h1 : s.wpc = .watching) (h2 : s.lease = false) :
      SlotStep s { s with lease := true, wpc := .locked }
  /-- Worker: `[ ! -f "$task_file" ]` — no task, go release (line 84-87). -/
  | wSkipNoTask (s : MState) (h1 : s.wpc = .locked) (h2 : s.task = none) :
      SlotStep s { s with wpc := .unlockingSkip }
  /-- Worker: malformed task (`[ -z "$prompt" ]`): `rm -f "$task_file"`,
  go release (lines 92-97). -/
  | wMalformed (s : MState) (t : MTask) (h1 : s.wpc = .locked)
      (h2 : s.task = some t) (h3 : t.prompt = "") :
      SlotStep s { s with task := none, wpc := .unlockingSkip }
  /-- Worker: write `Status{working}` (line 102) and start the agent. -/
  | wStartWork (s : MState) (t : MTask) (h1 : s.wpc = .locked)
      (h2 : s.task = some t) (h3 : t.prompt ≠ "") :
      SlotStep s { s with status := .working t.id, wpc := .runningTask t }
  /-- Worker: write `result.json` (lines 124-135). -/
  | wWriteResult (s : MState) (t : MTask) (succ : Bool)
      (h : s.wpc = .runningTask t) :
      SlotStep s { s with result := some ⟨t.id, succ⟩, wpc := .resultWritten t succ }
  /-- Worker: write the terminal status (line 139 / 142). -/
  | wWriteTerminal (s : MState) (t : MTask) (succ : Bool)
      (h : s.wpc = .resultWritten t succ) :
      SlotStep s { s with
        status := if succ then .done t.id else .error t.id,
        wpc := .terminalWritten }
  /-- Worker: `rm -f ... "$task_file"` (line 147). -/
  | wDeleteTask (s : MState) (h : s.wpc = .terminalWritten) :
      SlotStep s { s with task := none, wpc := .unlockingDone }
  /-- Worker: `release_lock` (line 148, or the skip-path releases). -/
  | wRelease (s : MState)
      (h : s.wpc = .unlockingDone ∨ s.wpc = .unlockingSkip) :
      SlotStep s { s with lease := false, wpc := .watching }

/-- States reachable from worker start-up by any interleaving. -/
inductive SlotReach : MState → Prop
  | init : SlotReach initState
  | step {s s' : MState} : SlotReach s → SlotStep s s' → SlotReach s'

/-! ## Scheduler (`bin/orchestrator.js`)

`findIdleWorker`, `waitForAvailableWorker`, `executeTasks` and
`executeSequential`, embedded over the slot records above.  The slot-store
calls they make (`readStatus`, `writeTask`, `clearResult`, `writeStatus`,
`readResult`) are field reads and writes on `FSlot` (modelled from the
spec, §4.2, since `lib/queue.js` is not in the source tree). -/

/-- `findIdleWorker` (orchestrator.js lines 43-51): scan workers in index
order, return the first whose status reads `idle` or `done`. -/
def findIdleAux : List FSlot → Nat → Option Nat
  | [], _ => none
  | sl :: rest, i =>
    if sl.status.isAssignable then some i else findIdleAux rest (i + 1)

/-- `findIdleWorker` over the whole worker list. -/
def findIdle (slots : List FSlot) : Option Nat :=
  findIdleAux slots 0

/-- The polling loop of `waitForAvailableWorker` (orchestrator.js lines
56-70): one probe per second while the elapsed time is below `timeoutMs`.
`probesLeft` counts the remaining loop entries; when it reaches zero the
function throws (`.error ()`). -/
def waitLoop (probe : Nat → Option Nat) : Nat → Nat → Except Unit Nat
  | 0, _ => .error ()
  | probesLeft + 1, i =>
    match probe i with
    | some w => .ok w
    | none => waitLoop probe probesLeft (i + 1)

/-- `waitForAvailableWorker(timeoutMs = 300000)`: the slot states at each
poll instant are `slotsAt`; the loop runs `⌈timeoutMs / 1000⌉` probes (one
per one-second sleep) and then throws the timeout error. -/
def waitForAvailableWorker (slotsAt : Nat → List FSlot) (timeoutMs : Nat) :
    Except Unit Nat :=
  waitLoop (fun i => findIdle (slotsAt i)) ((timeoutMs + 999) / 1000) 0

/-- Replace the slot at index `i`. -/
def modifySlot : List FSlot → Nat → (FSlot → FSlot) → List FSlot
  | [], _, _ => []
  | sl :: rest, 0, f => f sl :: rest
  | sl :: rest, n + 1, f => sl :: modifySlot rest n f

/-- Read the slot at index `i` (indices are always in range in the code;
out of range yields an empty idle slot, matching the spec rule that reads
of absent records return empty values). -/
def getSlot (slots : List FSlot) (i : Nat) : FSlot :=
  slots.getD i ⟨.idle, none, none⟩

/-- One entry of the `activeWorkers` JS `Map`:
`workerId ↦ (taskId, originalTask prompt)`. -/
abbrev ActiveEntry := Nat × Nat × String

/-- `Map.set`: update in place when the key exists (keeping its insertion
position), otherwise append. -/
def mapSet : List ActiveEntry → Nat → Nat × String → List ActiveEntry
  | [], k, v => [(k, v)]
  | (k', v') :: rest, k, v =>
    if k' = k then (k, v) :: rest else (k', v') :: mapSet rest k v

/-- `Map.delete`: remove the entry with the given key. -/
def mapDelete : List ActiveEntry → Nat → List ActiveEntry
  | [], _ => []
  | (k', v') :: rest, k =>
    if k' = k then rest else (k', v') :: mapDelete rest k

/-- One element of the `results` array `executeTasks` returns:
`{workerId, taskId, task, result, status}`. -/
structure POutcome where
  workerId : Nat
  taskId : Nat
  taskPrompt : String
  result : Option MResult
  status : WStatus
deriving DecidableEq, Repr

/-- The in-memory state of one `executeTasks` call: the durable slots, the
pending `taskQueue` (prompts), the `activeWorkers` map, the `results`
array, and the fresh-id counter of `writeTask` (ids are monotonic per
spec §4.2; the source uses millisecond timestamps). -/
structure OrchState where
  slots : List FSlot
  queue : List String
  active : List ActiveEntry
  results : List POutcome
  nextId : Nat
deriving DecidableEq, Repr

/-- The inner assignment loop of `executeTasks` (orchestrator.js lines
125-133): while tasks are pending, `findIdleWorker`; stop at the first
`null`; otherwise shift the next task, `clearResult` + `writeTask`
(`assignTask`, lines 75-86) and record the assignment in `activeWorkers`.
The loop is synchronous: no worker transition happens inside it. -/
def assignLoop : List String → List FSlot → List ActiveEntry → Nat →
    List String × List FSlot × List ActiveEntry × Nat
  | [], slots, active, nextId => ([], slots, active, nextId)
  | p :: ps, slots, active, nextId =>
    match findIdle slots with
    | none => (p :: ps, slots, active, nextId)
    | some w =>
      assignLoop ps
        (modifySlot slots w fun sl => { sl with result := none, task := some ⟨nextId, p⟩ })
        (mapSet active w (nextId, p))
        (nextId + 1)

/-- The collection pass of `executeTasks` (orchestrator.js lines 136-158):
for each key of `activeWorkers` in insertion order, read the status; on
`done`/`error` read the result, push the outcome, write the status back to
idle and delete the assignment. -/
def collectPass : List ActiveEntry → List FSlot → List ActiveEntry →
    List POutcome → List FSlot × List ActiveEntry × List POutcome
  | [], slots, active, results => (slots, active, results)
  | (w, tid, p) :: rest, slots, active, results =>
    let sl := getSlot slots w
    if sl.status.isTerminal then
      collectPass rest
        (modifySlot slots w fun s => { s with status := .idle })
        (mapDelete active w)
        (results ++ [⟨w, tid, p, sl.result, sl.status⟩])
    else
      collectPass rest slots active results

/-- Worker activity during one 500 ms sleep of the scheduler: each worker
whose schedule bit is set runs one full `process_task` cycle on its slot
(with a successfully exiting agent). -/
def applySchedAux (runs : Nat → Bool) : Nat → List FSlot → List FSlot
  | _, [] => []
  | w, sl :: rest =>
    (if runs w then (process_task sl true true).1 else sl) ::
      applySchedAux runs (w + 1) rest

/-- The outer loop of `executeTasks` (orchestrator.js lines 123-163),
fuel-indexed since nothing bounds it.  `sched round w` says whether worker
`w` completes a processing cycle during the sleep of the given round. -/
def execTasksLoop (sched : Nat → Nat → Bool) :
    Nat → Nat → OrchState → Option (List POutcome)
  | 0, _, _ => none
  | fuel + 1, round, st =>
    if st.queue = [] ∧ st.active = [] then
      some st.results
    else
      match assignLoop st.queue st.slots st.active st.nextId with
      | (q1, slots1, active1, nid1) =>
        if active1 = [] then
          -- `activeWorkers.size > 0` false: no collection, no sleep
          execTasksLoop sched fuel (round + 1) ⟨slots1, q1, active1, st.results, nid1⟩
        else
          match collectPass active1 slots1 active1 st.results with
          | (slots2, active2, results2) =>
            execTasksLoop sched fuel (round + 1)
              ⟨applySchedAux (sched round) 0 slots2, q1, active2, results2, nid1⟩

/-- `executeTasks(tasks)` with `numWorkers` fresh idle slots (worker
start-up writes `Status{idle}`). -/
def executeTasks (numWorkers : Nat) (prompts : List String)
    (sched : Nat → Nat → Bool) (fuel : Nat) : Option (List POutcome) :=
  execTasksLoop sched fuel 0
    ⟨List.replicate numWorkers ⟨.idle, none, none⟩, prompts, [], [], 0⟩

/-! ## Sequential pipeline: `executeSequential` (orchestrator.js 171-205) -/

/-- A task as handed to `executeSequential`: a prompt plus the optional
`stopOnError` flag. -/
structure SeqTask where
  prompt : String
  stopOnError : Bool
deriving DecidableEq, Repr

/-- One element of the array `executeSequential` returns (task, the
`success` field of the result the worker wrote, and the terminal status
read back — `done` on success, `error` on failure, per worker.sh lines
138-144). -/
structure SeqOutcome where
  task : SeqTask
  success : Bool
  status : WStatus
deriving DecidableEq, Repr

/-- `executeSequential`: dispatch tasks one at a time; after each
completion push the outcome, reset the worker, and stop early when the
task carries `stopOnError` and the result was unsuccessful
(orchestrator.js lines 198-201).  `env i` is the success of the i-th
dispatched task; the second component lists the tasks actually
dispatched. -/
def executeSequential (env : Nat → Bool) :
    List SeqTask → Nat → List SeqOutcome × List SeqTask
  | [], _ => ([], [])
  | t :: ts, i =>
    let succ := env i
    let o : SeqOutcome := ⟨t, succ, if succ then .done i else .error i⟩
    if t.stopOnError && !succ then
      ([o], [t])
    else
      let rest := executeSequential env ts (i + 1)
      (o :: rest.1, t :: rest.2)

/-! ## Concrete states and schedules used by the theorems -/

/-- The stuck configuration for C2: one slot whose worker is mid-task
(status `working`) and never progresses, and one pending task. -/
def stuckState : OrchState :=
  ⟨[⟨.working 99, none, none⟩], ["t"], [], [], 0⟩

/-- No worker ever runs. -/
def schedNever : Nat → Nat → Bool := fun _ _ => false

/-- `executeTasks` started on `stuckState` yields no value — neither a
result list nor a timeout error — for any amount of fuel. -/
def ExecuteTasksHangs : Prop :=
  ∀ fuel round, execTasksLoop schedNever fuel round stuckState = none

/-- A concrete valid task for the C3 traces. -/
def cexTask : MTask := ⟨1, "p"⟩

/-- The slot right after `assignTask` finished: status still `idle`, task
record present. -/
def idleWithTaskState : MState :=
  ⟨.idle, some cexTask, none, false, .watching, .ready⟩

/-- The slot mid-execution: status `working`, agent running `cexTask`. -/
def workingState : MState :=
  ⟨.working 1, some cexTask, none, true, .runningTask cexTask, .ready⟩

/-- The slot right after the scheduler reset it to idle: the consumed
result record is still present (`readResult` does not delete and the reset
writes only the status). -/
def idleWithResultState : MState :=
  ⟨.idle, none, some ⟨1, true⟩, false, .watching, .ready⟩

/-- The slot once the worker has acquired the lease for `cexTask`. -/
def lockedState : MState :=
  ⟨.idle, some cexTask, none, true, .locked, .ready⟩

/-- The invariant that does hold: whenever the status reads `working`, a
Task record is present, and the worker is between its working-status write
and its terminal-status write. -/
def WorkingOk (s : MState) : Prop :=
  ∀ tid, s.status = .working tid →
    s.task ≠ none ∧
      ((∃ t, s.wpc = .runningTask t) ∨ ∃ t b, s.wpc = .resultWritten t b)

/-! ## Theorems -/

/-- C5: for every acquire attempt that finds the lock held by a live
process, `acquire_lock` backs off with bounded exponential delays
(1s, 2s, 4s, 8s, 16s) over a budget of five attempts, removes no marker,
and after the budget is exhausted the call fails (shell `return 1`, the
`TimeoutError` of the spec taxonomy). -/
theorem acquire_lock_live_holder_backoff (env : Nat → LockObs)
    (h : ∀ i, env i = .heldLive) :
    acquire_lock env 6 = some (false, [1, 2, 4, 8, 16], 0) := by
  have he : env = fun _ => LockObs.heldLive := funext h
  subst he
  rfl

/-- C5 witness: the theorem applied to the constantly-live environment. -/
theorem acquire_lock_live_holder_backoff_witness :
    acquire_lock (fun _ => LockObs.heldLive) 6 = some (false, [1, 2, 4, 8, 16], 0) :=
  acquire_lock_live_holder_backoff _ (fun _ => rfl)

/-- C6: when the lock marker records a PID with no live process, the next
`acquire_lock` removes the stale marker and succeeds on the immediately
following retry, with no backoff sleep and no manual intervention. -/
theorem acquire_lock_stale_reclaim (env : Nat → LockObs)
    (h0 : env 0 = .heldDead) (h1 : env 1 = .free) :
    acquire_lock env 2 = some (true, [], 1) := by
  simp [acquire_lock, acquireLockAux, h0, h1]

/-- C6 witness: the theorem applied to a concrete stale-then-free
environment. -/
theorem acquire_lock_stale_reclaim_witness :
    acquire_lock (fun i => if i = 0 then LockObs.heldDead else .free) 2
      = some (true, [], 1) :=
  acquire_lock_stale_reclaim _ rfl rfl

/-- C10: in the retry loop of `acquire_lock`, a stale-lock discovery
removes the marker and retries immediately — no sleep is recorded and
`retries` is not decremented; the five-attempt budget is consumed only by
live-holder (or missing-pid) attempts, so the call terminates within the
budget under the hypothesis that every failed attempt finds a live holder,
and an environment that presents a fresh stale lock on every attempt keeps
the loop running for any amount of fuel. -/
theorem acquire_lock_stale_attempts_free :
    (∀ env fuel i retries wait sleeps stale, env i = .heldDead → retries ≠ 0 →
        acquireLockAux env (fuel + 1) i retries wait sleeps stale
          = acquireLockAux env fuel (i + 1) retries wait sleeps (stale + 1)) ∧
    (∀ env, (∀ i, env i = .heldLive) →
        acquire_lock env 6 = some (false, [1, 2, 4, 8, 16], 0)) ∧
    (∀ fuel i stale,
        acquireLockAux (fun _ => .heldDead) fuel i 5 1 [] stale = none) := by
  refine ⟨?_, ?_, ?_⟩
  · intro env fuel i retries wait sleeps stale hdead hr
    simp [acquireLockAux, hdead, hr]
  · intro env h
    have he : env = fun _ => LockObs.heldLive := funext h
    subst he
    rfl
  · intro fuel
    induction fuel with
    | zero => intro i stale; rfl
    | succ n ih => intro i stale; simpa [acquireLockAux] using ih (i + 1) (stale + 1)

/-- C10 witness: each conjunct instantiated at concrete inputs. -/
theorem acquire_lock_stale_attempts_free_witness :
    acquireLockAux (fun _ => LockObs.heldDead) 1 0 5 1 [] 0
        = acquireLockAux (fun _ => LockObs.heldDead) 0 1 5 1 [] 1 ∧
    acquire_lock (fun _ => LockObs.heldLive) 6 = some (false, [1, 2, 4, 8, 16], 0) ∧
    acquireLockAux (fun _ => LockObs.heldDead) 9 3 5 1 [] 2 = none :=
  ⟨acquire_lock_stale_attempts_free.1 _ 0 0 5 1 [] 0 rfl (by decide),
   acquire_lock_stale_attempts_free.2.1 _ (fun _ => rfl),
   acquire_lock_stale_attempts_free.2.2 9 3 2⟩

/-- C4 counterexample: not every write of a Status or Result record uses
the temporary-location-plus-atomic-rename mechanism — none of the record
writes in `bin/worker.sh` does. -/
theorem worker_writes_not_temp_rename :
    (workerWriteSites.all fun w => w.mech == WriteMech.tempThenRename) = false := by
  decide

/-- C4 amended: every Status/Result record write in the worker runtime is
a single direct shell redirection onto the canonical path; the
temp-then-rename mechanism appears at none of the write sites. -/
theorem worker_writes_all_direct :
    workerWriteSites ≠ [] ∧
    (workerWriteSites.all fun w => w.mech == WriteMech.directRedirect) = true := by
  decide

/-- C7: on every completion of a valid task (success or failure) the worker
performs its terminal steps in exactly this order — write the Result
record, write the terminal Status (`done` or `error`), delete the Task
record, release the lease last — and at the moment of release the slot is
consistent: no Task record, the Result present, the Status terminal. -/
theorem process_task_terminal_order (s : FSlot) (t : MTask) (succ : Bool)
    (h1 : s.task = some t) (h2 : t.prompt ≠ "") :
    (process_task s true succ).2.1 =
      [.acquireLock, .writeStatusWorking, .execAgent, .writeResult,
       if succ then .writeStatusDone else .writeStatusError,
       .deleteTask, .releaseLock] ∧
    (process_task s true succ).1.task = none ∧
    (process_task s true succ).1.result = some ⟨t.id, succ⟩ ∧
    (process_task s true succ).1.status
      = (if succ then .done t.id else .error t.id) := by
  simp [process_task, h1, h2]

/-- C7 witness: a concrete working slot processed successfully. -/
theorem process_task_terminal_order_witness :
    (process_task ⟨.idle, some ⟨7, "fix the bug"⟩, none⟩ true true).2.1 =
      [.acquireLock, .writeStatusWorking, .execAgent, .writeResult,
       .writeStatusDone, .deleteTask, .releaseLock] :=
  (process_task_terminal_order ⟨.idle, some ⟨7, "fix the bug"⟩, none⟩
    ⟨7, "fix the bug"⟩ true rfl (by decide)).1

/-- C9 counterexample: processing a task with a missing `prompt` writes no
Result record and no Status record — the slot keeps its previous status
and empty result, so the fault is not converted into a recorded
Result/Status. -/
theorem malformed_task_writes_no_record :
    (process_task ⟨.idle, some ⟨5, ""⟩, none⟩ true true).1.result = none ∧
    (process_task ⟨.idle, some ⟨5, ""⟩, none⟩ true true).1.status = .idle ∧
    ((process_task ⟨.idle, some ⟨5, ""⟩, none⟩ true true).2.1.contains
        WOp.writeResult) = false ∧
    ((process_task ⟨.idle, some ⟨5, ""⟩, none⟩ true true).2.1.contains
        WOp.writeStatusError) = false := by
  decide

/-- C9 amended: on a task record missing its required `prompt` field the
worker deletes the task (so it is never retried automatically), leaves the
Status and Result records untouched, performs no record write, and returns
0 — the runtime keeps running rather than exiting — but the fault is only
logged, not recorded as a Result/Status. -/
theorem malformed_task_discarded_no_exit (s : FSlot) (t : MTask) (b : Bool)
    (h1 : s.task = some t) (h2 : t.prompt = "") :
    (process_task s true b).1.task = none ∧
    (process_task s true b).1.status = s.status ∧
    (process_task s true b).1.result = s.result ∧
    (process_task s true b).2.1 = [.acquireLock, .deleteTask, .releaseLock] ∧
    (process_task s true b).2.2 = 0 := by
  simp [process_task, h1, h2]

/-- C9 amended witness: a concrete malformed task. -/
theorem malformed_task_discarded_no_exit_witness :
    (process_task ⟨.idle, some ⟨5, ""⟩, none⟩ true true).1.task = none ∧
    (process_task ⟨.idle, some ⟨5, ""⟩, none⟩ true true).2.2 = 0 := by
  have h := malformed_task_discarded_no_exit ⟨.idle, some ⟨5, ""⟩, none⟩
    ⟨5, ""⟩ true rfl rfl
  exact ⟨h.1, h.2.2.2.2⟩

/-- C8: whenever `executeSequential` reaches a task that carries
`stopOnError` and whose outcome is unsuccessful, it records that single
outcome (with `success = false` and an `error` terminal status), returns,
and dispatches none of the remaining tasks. -/
theorem executeSequential_stops_on_error (env : Nat → Bool) (t : SeqTask)
    (ts : List SeqTask) (i : Nat)
    (hstop : t.stopOnError = true) (hfail : env i = false) :
    executeSequential env (t :: ts) i = ([⟨t, false, .error i⟩], [t]) := by
  simp [executeSequential, hstop, hfail]

/-- C8 witness: tasks `[A(stopOnError, fails), B, C]` yield exactly the
outcome of A and only A is dispatched. -/
theorem executeSequential_stops_on_error_witness :
    executeSequential (fun _ => false)
        [⟨"A", true⟩, ⟨"B", false⟩, ⟨"C", false⟩] 0
      = ([⟨⟨"A", true⟩, false, .error 0⟩], [⟨"A", true⟩]) :=
  executeSequential_stops_on_error _ _ _ _ rfl rfl

/-- C1: evaluation of `executeTasks` at the failing input — two tasks, one
worker, with the worker running (successfully) during every scheduler
sleep.  The call returns successfully but yields one outcome instead of
two: the second `writeTask` overwrites the first task record before pickup
(the status file still reads `idle` inside the synchronous assignment
loop) and the `activeWorkers` entry is overwritten with it, so task `t1`
never yields an outcome. -/
theorem executeTasks_two_tasks_one_worker_loses_task :
    executeTasks 1 ["t1", "t2"] (fun _ _ => true) 5
        = some [⟨0, 1, "t2", some ⟨1, true⟩, .done 1⟩] ∧
    (executeTasks 1 ["t1", "t2"] (fun _ _ => true) 5).map List.length
        = some 1 := by
  constructor <;> rfl

/-- C2 counterexample: when no slot ever becomes available, the parallel
dispatch does not fail with a timeout error — `executeTasks` never calls
`waitForAvailableWorker` and its polling loop runs forever (it spins,
returning no value at any fuel), contrary to the claimed bounded global
timeout on the wait-for-an-idle-slot step. -/
theorem executeTasks_no_timeout_spins_forever : ExecuteTasksHangs := by
  intro fuel
  induction fuel with
  | zero => intro round; rfl
  | succ n ih =>
    intro round
    have h : execTasksLoop schedNever (n + 1) round stuckState
        = execTasksLoop schedNever n (round + 1) stuckState := rfl
    rw [h]
    exact ih (round + 1)

/-- If every probe comes back empty, the polling loop of
`waitForAvailableWorker` ends in the thrown timeout error. -/
theorem waitLoop_all_empty (probe : Nat → Option Nat)
    (h : ∀ i, probe i = none) :
    ∀ n i, waitLoop probe n i = .error () := by
  intro n
  induction n with
  | zero => intro i; rfl
  | succ k ih =>
    intro i
    simpa [waitLoop, h i] using ih (i + 1)

/-- C2 amended: the bounded wait-for-an-idle-slot timeout exists in
`waitForAvailableWorker` (one probe per second, `⌈timeoutMs/1000⌉`
probes, then a thrown timeout error), which only the sequential pipeline
uses; if no slot reads idle or done at any probe, the call fails with the
timeout error instead of waiting forever. -/
theorem waitForAvailableWorker_times_out (slotsAt : Nat → List FSlot)
    (h : ∀ i, findIdle (slotsAt i) = none) (timeoutMs : Nat) :
    waitForAvailableWorker slotsAt timeoutMs = .error () :=
  waitLoop_all_empty _ h ((timeoutMs + 999) / 1000) 0

/-- C2 amended witness: every slot permanently `working` with the default
300000 ms window. -/
theorem waitForAvailableWorker_times_out_witness :
    waitForAvailableWorker (fun _ => [⟨.working 7, none, none⟩]) 300000
      = .error () :=
  waitForAvailableWorker_times_out (fun _ => [⟨.working 7, none, none⟩])
    (fun _ => rfl) 300000

/-- `assignTask` on a fresh slot reaches `idleWithTaskState`. -/
theorem reach_idleWithTask : SlotReach idleWithTaskState :=
  SlotReach.step
    (SlotReach.step SlotReach.init
      (SlotStep.oClear initState cexTask rfl rfl))
    (SlotStep.oWrite _ cexTask rfl)

/-- The worker then acquires the lease and starts the task. -/
theorem reach_workingState : SlotReach workingState :=
  SlotReach.step
    (SlotReach.step reach_idleWithTask
      (SlotStep.wAcquire idleWithTaskState rfl rfl))
    (SlotStep.wStartWork lockedState cexTask rfl rfl (by decide))

/-- The worker completes and the scheduler consumes the result and resets
the status; the result record survives the reset. -/
theorem reach_idleWithResult : SlotReach idleWithResultState := by
  have h1 := SlotReach.step reach_workingState
    (SlotStep.wWriteResult workingState cexTask true rfl)
  have h2 := SlotReach.step h1 (SlotStep.wWriteTerminal _ cexTask true rfl)
  have h3 := SlotReach.step h2 (SlotStep.wDeleteTask _ rfl)
  have h4 := SlotReach.step h3 (SlotStep.wRelease _ (Or.inl rfl))
  exact SlotReach.step h4 (SlotStep.oReset _ rfl rfl)

/-- C3 counterexample: two reachable sampled instants violate the claimed
invariant — after `assignTask` the slot is `idle` with a Task record
present, and after the scheduler reset the slot is `idle` with the
consumed Result record still present. -/
theorem idle_slot_with_records_reachable :
    (SlotReach idleWithTaskState ∧ idleWithTaskState.status = .idle ∧
      idleWithTaskState.task ≠ none) ∧
    (SlotReach idleWithResultState ∧ idleWithResultState.status = .idle ∧
      idleWithResultState.result ≠ none) :=
  ⟨⟨reach_idleWithTask, rfl, by decide⟩,
   ⟨reach_idleWithResult, rfl, by decide⟩⟩

/-- Every protocol step preserves `WorkingOk`. -/
theorem workingOk_step {s s' : MState} (inv : WorkingOk s)
    (h : SlotStep s s') : WorkingOk s' := by
  cases h with
  | oClear t h1 h2 =>
    intro tid heq
    have heq2 : s.status = .working tid := heq
    rw [heq2] at h2
    exact absurd h2 (by simp [WStatus.isAssignable])
  | oWrite t h =>
    intro tid heq
    have heq2 : s.status = .working tid := heq
    exact ⟨by simp, (inv tid heq2).2⟩
  | oReset h1 h2 =>
    intro tid heq
    exact WStatus.noConfusion (show WStatus.idle = WStatus.working tid from heq)
  | wAcquire h1 h2 =>
    intro tid heq
    have heq2 : s.status = .working tid := heq
    rcases (inv tid heq2).2 with ⟨u, hu⟩ | ⟨u, b, hu⟩ <;>
      (rw [h1] at hu; exact WPc.noConfusion hu)
  | wSkipNoTask h1 h2 =>
    intro tid heq
    have heq2 : s.status = .working tid := heq
    rcases (inv tid heq2).2 with ⟨u, hu⟩ | ⟨u, b, hu⟩ <;>
      (rw [h1] at hu; exact WPc.noConfusion hu)
  | wMalformed t h1 h2 h3 =>
    intro tid heq
    have heq2 : s.status = .working tid := heq
    rcases (inv tid heq2).2 with ⟨u, hu⟩ | ⟨u, b, hu⟩ <;>
      (rw [h1] at hu; exact WPc.noConfusion hu)
  | wStartWork t h1 h2 h3 =>
    intro tid heq
    exact ⟨by simp [h2], Or.inl ⟨t, rfl⟩⟩
  | wWriteResult t succ h =>
    intro tid heq
    have heq2 : s.status = .working tid := heq
    exact ⟨(inv tid heq2).1, Or.inr ⟨t, succ, rfl⟩⟩
  | wWriteTerminal t succ h =>
    intro tid heq
    cases succ
    · exact WStatus.noConfusion
        (show WStatus.error t.id = WStatus.working tid from heq)
    · exact WStatus.noConfusion
        (show WStatus.done t.id = WStatus.working tid from heq)
  | wDeleteTask h =>
    intro tid heq
    have heq2 : s.status = .working tid := heq
    rcases (inv tid heq2).2 with ⟨u, hu⟩ | ⟨u, b, hu⟩ <;>
      (rw [h] at hu; exact WPc.noConfusion hu)
  | wRelease h =>
    intro tid heq
    have heq2 : s.status = .working tid := heq
    rcases (inv tid heq2).2 with ⟨u, hu⟩ | ⟨u, b, hu⟩ <;>
      (rcases h with h | h <;> (rw [h] at hu; exact WPc.noConfusion hu))

/-- `WorkingOk` holds in every reachable state. -/
theorem slotReach_workingOk {s : MState} (h : SlotReach s) : WorkingOk s := by
  induction h with
  | init => intro tid heq; exact WStatus.noConfusion heq
  | step _ hs ih => exact workingOk_step ih hs

/-- C3 amended: the claimed idle invariant fails (an assigned Task
coexists with `idle` until pickup, and a consumed Result survives the
idle reset until the next assignment clears it); the status/record
invariant that holds at every sampled instant of every interleaving is:
if the status reads `working`, a Task record is present. -/
theorem working_status_implies_task_present (s : MState)
    (hreach : SlotReach s) (tid : Nat) (h : s.status = .working tid) :
    s.task ≠ none :=
  (slotReach_workingOk hreach tid h).1

/-- C3 amended witness: the concrete reachable mid-execution state. -/
theorem working_status_implies_task_present_witness :
    workingState.task ≠ none :=
  working_status_implies_task_present workingState reach_workingState 1 rfl

end Conductor
